import Mathlib

/-
Verification of the MarketLink bot (src/main.py).

The repository's single source file contains two full bot definitions
concatenated: a legacy synchronous-sqlite bot (lines 1-851) and the
aiosqlite bot (lines 853-1668).  Python executes both definition blocks,
so the later (aiosqlite) definitions shadow the earlier ones, and the only
`main()` present is the aiosqlite one, which registers `callback_handler`,
the photo-first order conversation (`order_start`/`order_photo`/`order_name`
/`order_phone`/`order_address`), `pay_sub_receive` and `cleanup_old_photos`.
The legacy bot's handlers (`admin_callback`, `order_shopping`,
`order_photo_receive`, ...) are dead code, but some claims cite them, so the
cart logic of `order_shopping` and the submission step of
`order_photo_receive` are embedded as well and clearly marked as legacy.

Modelling conventions:
- the sqlite tables become lists of records inside a `Store` structure;
  AUTOINCREMENT primary keys become explicit `next_order_id` /
  `next_payment_id` counters;
- stored date / timestamp TEXT columns become `TimeVal`: either `valid t`
  (a text that `datetime.strptime` parses, represented by its day number
  `t : Int`) or `invalid s` (unparseable text); a NULL column is `none`;
  date arithmetic (`timedelta(days=d)`) becomes integer addition;
- `datetime.now()` becomes an explicit `now : Int` argument;
- the Telegram side effects (send_message / edit captions / alert answers)
  become a returned `List Effect`; sends are wrapped in try/except in the
  source, so an `Effect` records the attempted notification;
- the photo directory becomes a `List String` of existing file paths.
-/

namespace LinkingMarket

/-- Configuration constants from src/main.py lines 905-910. -/
def CLEANUP_PHOTO_DAYS : Int := 30

/-- Subscription extension period (src/main.py line 910). -/
def SUBSCRIPTION_EXTENSION_DAYS : Int := 30

/-- Trial period for a new shop (src/main.py line 909). -/
def TRIAL_DAYS : Int := 3

/-- A stored TEXT date/timestamp: either it parses (day number `t`) or it is
unparseable text.  A NULL / empty column is modelled as `none` at use sites. -/
inductive TimeVal where
  | valid (t : Int)
  | invalid (s : String)
deriving DecidableEq, Repr

/-- A row of the `shops` table (src/main.py lines 929-934). -/
structure Shop where
  owner_id : Int
  shop_name : String
  expire_date : Option TimeVal
  created_at : Option TimeVal
deriving DecidableEq, Repr

/-- A row of the `orders` table (src/main.py lines 950-962). -/
structure OrderRec where
  id : Int
  shop_id : Int
  customer_id : Int
  cust_name : String
  cust_phone : String
  cust_address : String
  items : String
  total : Int
  photo_path : Option String
  status : String
  created_at : TimeVal
deriving DecidableEq, Repr

/-- A row of the `payments` table (src/main.py lines 964-972). -/
structure PaymentRec where
  id : Int
  uid : Int
  kind : String
  ref_id : Option Int
  photo_path : Option String
  status : String
  created_at : TimeVal
deriving DecidableEq, Repr

/-- The persistent store: the three tables the claims concern, plus the
AUTOINCREMENT counters for orders and payments. -/
structure Store where
  shops : List Shop
  orders : List OrderRec
  payments : List PaymentRec
  next_order_id : Int
  next_payment_id : Int
deriving DecidableEq, Repr

/-- SELECT ... FROM shops WHERE owner_id=? (src/main.py lines 1007-1008). -/
def db_get_shop (st : Store) (owner_id : Int) : Option Shop :=
  st.shops.find? (fun s => s.owner_id == owner_id)

/-- The base date used by `db_extend_shop`: the stored expiry when present and
parseable, otherwise now (src/main.py lines 1017-1024). -/
def extendBase (row : Option Shop) (now : Int) : Int :=
  match row with
  | some s =>
    match s.expire_date with
    | some (TimeVal.valid d) => d
    | some (TimeVal.invalid _) => now
    | none => now
  | none => now

/-- db_extend_shop (src/main.py lines 1016-1027): read the current expiry,
add `days` to it (or to now when it is absent/unparseable), and run
UPDATE shops SET expire_date=? WHERE owner_id=?.  Returns the new expiry. -/
def db_extend_shop (st : Store) (owner_id days now : Int) : Int × Store :=
  let cur_exp := extendBase (db_get_shop st owner_id) now
  let new_exp := cur_exp + days
  (new_exp,
   { st with
     shops := st.shops.map (fun s =>
       if s.owner_id == owner_id then { s with expire_date := some (TimeVal.valid new_exp) } else s) })

/-- db_create_order (src/main.py lines 1067-1072): INSERT a Pending order,
returning lastrowid. -/
def db_create_order (st : Store) (shop_id customer_id : Int)
    (cust_name cust_phone cust_address items : String) (total : Int)
    (photo_path : Option String) (now : Int) : Int × Store :=
  let oid := st.next_order_id
  let row : OrderRec :=
    { id := oid
      shop_id := shop_id
      customer_id := customer_id
      cust_name := cust_name
      cust_phone := cust_phone
      cust_address := cust_address
      items := items
      total := total
      photo_path := photo_path
      status := "Pending"
      created_at := TimeVal.valid now }
  (oid, { st with orders := st.orders ++ [row], next_order_id := oid + 1 })

/-- SELECT * FROM orders WHERE id=? (src/main.py lines 1075-1076). -/
def db_get_order (st : Store) (oid : Int) : Option OrderRec :=
  st.orders.find? (fun o => o.id == oid)

/-- db_update_order_status (src/main.py lines 1079-1080): UPDATE orders SET
status=? WHERE id=?, unconditionally on the current status. -/
def db_update_order_status (st : Store) (oid : Int) (status : String) : Store :=
  { st with
    orders := st.orders.map (fun o => if o.id == oid then { o with status := status } else o) }

/-- db_insert_payment (src/main.py lines 1083-1086): INSERT a pending payment,
returning lastrowid. -/
def db_insert_payment (st : Store) (uid : Int) (kind : String) (ref_id : Option Int)
    (photo_path : Option String) (now : Int) : Int × Store :=
  let pid := st.next_payment_id
  let row : PaymentRec :=
    { id := pid
      uid := uid
      kind := kind
      ref_id := ref_id
      photo_path := photo_path
      status := "pending"
      created_at := TimeVal.valid now }
  (pid, { st with payments := st.payments ++ [row], next_payment_id := pid + 1 })

/-- db_update_payment_status (src/main.py lines 1093-1094): UPDATE payments SET
status=? WHERE id=?, unconditionally on the current status. -/
def db_update_payment_status (st : Store) (pid : Int) (status : String) : Store :=
  { st with
    payments := st.payments.map (fun p => if p.id == pid then { p with status := status } else p) }

/-- is_shop_active (src/main.py lines 1102-1114): the admin is always active;
otherwise the shop must exist, its expiry must be present and parseable, and
today must be on or before it. -/
def is_shop_active (st : Store) (ADMIN_ID owner_id now : Int) : Bool :=
  if owner_id == ADMIN_ID then true
  else
    match db_get_shop st owner_id with
    | none => false
    | some s =>
      match s.expire_date with
      | none => false
      | some (TimeVal.invalid _) => false
      | some (TimeVal.valid d) => now ≤ d

/-- An attempted outbound Telegram operation produced by a handler.  The
source wraps every send in try/except, so an effect records the attempt. -/
inductive Effect where
  | answerAlert (msg : String)
  | editText (msg : String)
  | editCaption (msg : String)
  | sendMessage (chat_id : Int) (msg : String)
deriving DecidableEq, Repr

/-- Caption of the message sent to a submitter on subscription approval
(src/main.py line 1363); the new expiry day number stands for the formatted
date string. -/
def subApprovedMsg (new_exp : Int) : String :=
  s!"Subscription approved. New expiry: {new_exp}"

/-- Notification to the customer on order confirmation (src/main.py line 1398). -/
def orderConfirmedMsg (oid : Int) : String :=
  s!"Your order #{oid} has been confirmed by the shop."

/-- Notification to the customer on order rejection (src/main.py line 1405). -/
def orderRejectedMsg (oid : Int) : String :=
  s!"Your order #{oid} was rejected by the shop."

/-- A decision action as decoded from callback data.  The string encoding
and decoding (`f"sub_ok_{pid}_{uid}"` built at src/main.py lines 1325/1439,
`data.split("_")` plus `int(...)` at lines 1348-1355 and 1378-1383) sit at
the chat-transport boundary, which the spec places out of scope; this
inductive is the parsed form a well-formed callback yields there.
`subOk pid uid` is `sub_ok_<pid>_<uid>`, `orderConf oid` is
`order_conf_<oid>`, and likewise for the reject variants.  Note the order
variants carry only the order id: the active bot's callbacks hold no
payment identifier. -/
inductive Decision where
  | subOk (pid uid : Int)
  | subNo (pid uid : Int)
  | orderConf (oid : Int)
  | orderRej (oid : Int)
deriving DecidableEq, Repr

/-- callback_handler (src/main.py lines 1340-1416), the registered
CallbackQueryHandler of the running bot, acting on a decoded decision.
`user_id` is `q.from_user.id`.  The subscription branch checks only that the
caller is the admin and never looks the payment up before acting; the order
branch looks the order up, authorizes the admin or the shop owner, and
mutates only the order row (no payment row is read or written there). -/
def callback_handler (ADMIN_ID : Int) (st : Store) (user_id : Int) (d : Decision)
    (now : Int) : Store × List Effect :=
  match d with
  | Decision.subOk pid uid =>
    if user_id != ADMIN_ID then (st, [Effect.answerAlert "Not authorized"])
    else
      let r := db_extend_shop st uid SUBSCRIPTION_EXTENSION_DAYS now
      let st2 := db_update_payment_status r.2 pid "approved"
      (st2, [Effect.sendMessage uid (subApprovedMsg r.1),
             Effect.editCaption (s!"Subscription processed. Approved -> UID {uid}")])
  | Decision.subNo pid uid =>
    if user_id != ADMIN_ID then (st, [Effect.answerAlert "Not authorized"])
    else
      (db_update_payment_status st pid "rejected",
       [Effect.sendMessage uid "Subscription payment rejected by admin.",
        Effect.editCaption (s!"Subscription processed. Rejected -> UID {uid}")])
  | Decision.orderConf oid =>
    match db_get_order st oid with
    | none => (st, [Effect.editText "Order not found."])
    | some order =>
      let owner_id : Option Int := (db_get_shop st order.shop_id).map (fun s => s.owner_id)
      if user_id != ADMIN_ID
          && (match owner_id with | some o => user_id != o | none => true) then
        (st, [Effect.answerAlert "Not authorized"])
      else
        (db_update_order_status st oid "Confirmed",
         [Effect.sendMessage order.customer_id (orderConfirmedMsg oid),
          Effect.editCaption (s!"Order #{oid} - Confirmed")])
  | Decision.orderRej oid =>
    match db_get_order st oid with
    | none => (st, [Effect.editText "Order not found."])
    | some order =>
      let owner_id : Option Int := (db_get_shop st order.shop_id).map (fun s => s.owner_id)
      if user_id != ADMIN_ID
          && (match owner_id with | some o => user_id != o | none => true) then
        (st, [Effect.answerAlert "Not authorized"])
      else
        (db_update_order_status st oid "Rejected",
         [Effect.sendMessage order.customer_id (orderRejectedMsg oid),
          Effect.editCaption (s!"Order #{oid} - Rejected")])

/-- The store writes of completing the active order flow (order_address,
src/main.py lines 1278-1306): a single `db_create_order` with empty `items`
and `total = 0`.  No payment row is inserted by this flow. -/
def order_address_submit (st : Store) (sid uid : Int)
    (cust_name cust_phone cust_address : String) (photo : Option String)
    (now : Int) : Int × Store :=
  db_create_order st sid uid cust_name cust_phone cust_address "" 0 photo now

/-- The store writes of the legacy checkout step (order_photo_receive,
src/main.py lines 617-646, shadowed dead code): create the order from the
accumulated cart, then insert a payment of kind "order" referencing it.
Returns (oid, pid, store). -/
def order_photo_receive_submit (st : Store) (sid uid : Int)
    (cust_name cust_phone cust_address : String) (cart : List String)
    (total : Int) (filename : String) (now : Int) : Int × Int × Store :=
  let r1 := db_create_order st sid uid cust_name cust_phone cust_address
    (String.intercalate "," cart) total (some filename) now
  let oid := r1.1
  let r2 := db_insert_payment r1.2 uid "order" (some oid) (some filename) now
  (oid, r2.1, r2.2)

/-- The store writes of receiving a subscription payment screenshot
(pay_sub_receive, src/main.py lines 1315-1336): insert a payment of kind
"subscription" with NULL ref_id. -/
def pay_sub_receive_submit (st : Store) (uid : Int) (filename : String)
    (now : Int) : Int × Store :=
  db_insert_payment st uid "subscription" none (some filename) now

/- ----- Legacy cart logic (order_shopping, src/main.py lines 594-614) ----- -/

/-- The in-memory cart state of the legacy shopping conversation:
`context.user_data["cart"]` and `context.user_data["total"]`. -/
structure CartState where
  cart : List String
  total : Int
deriving DecidableEq, Repr

/-- The cart entry string appended on a successful add: `f"{name}:{price}"`
with the name already stripped (src/main.py line 609). -/
def entryStr (name : String) (price : Int) : String :=
  name ++ ":" ++ toString price

/-- The cart rendering used by the view-cart reply:
`', '.join(cart) if cart else 'Empty'` (src/main.py line 599). -/
def renderCart (cart : List String) : String :=
  if cart.isEmpty then "Empty" else String.intercalate ", " cart

/-- The view-cart reply text (src/main.py line 599). -/
def cartViewMsg (cart : List String) (total : Int) : String :=
  s!"Cart: {renderCart cart} Total: {total} MMK"

/-- The confirmation reply after adding an entry (src/main.py line 611). -/
def addedMsg (name : String) (price total : Int) : String :=
  s!"Added {name} - {price} MMK. Total: {total}"

/-- A shopping-state input, classified the way order_shopping's chained
string checks classify the raw text (src/main.py lines 595-607): the view
cart button, the checkout button, a text containing a colon whose part
after the first colon parses as an int (`text.split(":", 1)` followed by
`int(price.strip())`) — carried here as the stripped name and the parsed
price — or anything else.  The Python-level string splitting and `int`
parsing are the conversation transport's input classification; a valid
`name:price` entry is exactly one that decodes to `entry name price`. -/
inductive ShopInput where
  | viewCart
  | checkout
  | entry (name : String) (price : Int)
  | other
deriving DecidableEq, Repr

/-- Result of one order_shopping step: stay in the shopping state (with an
optional reply) or move to the payment-photo state on checkout. -/
inductive ShoppingStep where
  | stay (st : CartState) (reply : Option String)
  | toPhoto (st : CartState)
deriving DecidableEq, Repr

/-- order_shopping (src/main.py lines 594-614, legacy conversation state
ORDER_SHOPPING): view cart echoes the cart without changing it, checkout
moves on, a `name:price` input appends `f"{name}:{price}"` to the cart and
adds the price to the total, anything else leaves the state unchanged (the
source replies "Format must be name:price" when a colon is present but the
price fails to parse, and stays silently when there is no colon). -/
def order_shopping (st : CartState) (input : ShopInput) : ShoppingStep :=
  match input with
  | ShopInput.viewCart =>
    ShoppingStep.stay st (some (cartViewMsg st.cart st.total))
  | ShopInput.checkout =>
    ShoppingStep.toPhoto st
  | ShopInput.entry name price =>
    ShoppingStep.stay
      { cart := st.cart ++ [entryStr name price], total := st.total + price }
      (some (addedMsg name price (st.total + price)))
  | ShopInput.other => ShoppingStep.stay st none

/-- Run a sequence of shopping inputs from a cart state, keeping the carried
state of each step. -/
def runShopping (st : CartState) (inputs : List ShopInput) : CartState :=
  inputs.foldl
    (fun s t =>
      match order_shopping s t with
      | ShoppingStep.stay s2 _ => s2
      | ShoppingStep.toPhoto s2 => s2)
    st

/- ----- Retention sweep (cleanup_old_photos, src/main.py lines 1555-1599) ----- -/

/-- One row of the sweep (both loop bodies of cleanup_old_photos have this
shape): if the photo path is set, the file exists, the record's created_at
parses and is older than the cutoff, remove the file; no store column is
touched. -/
def sweepRow (cutoff : Int) (fs : List String) (photo_path : Option String)
    (created_at : TimeVal) : List String :=
  match photo_path with
  | none => fs
  | some p =>
    if fs.contains p then
      match created_at with
      | TimeVal.valid t => if t < cutoff then fs.filter (fun q => !(q == p)) else fs
      | TimeVal.invalid _ => fs
    else fs

/-- Fold the sweep over the (photo_path, created_at) projections of a table. -/
def sweepList (cutoff : Int) (rows : List (Option String × TimeVal))
    (fs : List String) : List String :=
  rows.foldl (fun a r => sweepRow cutoff a r.1 r.2) fs

/-- cleanup_old_photos (src/main.py lines 1555-1599): cutoff = now minus the
retention window; sweep the order rows, then the payment rows.  The age test
uses the record's created_at column, and the function performs no database
writes at all: the returned store is the input store, photo_path columns
included. -/
def cleanup_old_photos (st : Store) (fs : List String) (now : Int) :
    Store × List String :=
  let cutoff := now - CLEANUP_PHOTO_DAYS
  let fs1 := sweepList cutoff (st.orders.map (fun r => (r.photo_path, r.created_at))) fs
  let fs2 := sweepList cutoff (st.payments.map (fun r => (r.photo_path, r.created_at))) fs1
  (st, fs2)

/- ----- Concrete fixtures used by witnesses and counterexamples ----- -/

/-- A shop owned by user 7 with a parseable expiry at day 10. -/
def shopA : Shop :=
  { owner_id := 7
    shop_name := "ShopA"
    expire_date := some (TimeVal.valid 10)
    created_at := some (TimeVal.valid 0) }

/-- A pending order at shop 7 submitted by customer 42, with a stored photo. -/
def orderA : OrderRec :=
  { id := 1
    shop_id := 7
    customer_id := 42
    cust_name := "Aye"
    cust_phone := "0912"
    cust_address := "Yangon"
    items := ""
    total := 0
    photo_path := some "photos/order_42_100.jpg"
    status := "Pending"
    created_at := TimeVal.valid 0 }

/-- A pending payment of kind order referencing order 1 (as the legacy flow
would have created it). -/
def payOrderA : PaymentRec :=
  { id := 1
    uid := 42
    kind := "order"
    ref_id := some 1
    photo_path := some "photos/pay_order_42_100.jpg"
    status := "pending"
    created_at := TimeVal.valid 0 }

/-- A pending subscription payment from user 7. -/
def paySubA : PaymentRec :=
  { id := 2
    uid := 7
    kind := "subscription"
    ref_id := none
    photo_path := some "photos/sub_7_100.jpg"
    status := "pending"
    created_at := TimeVal.valid 0 }

/-- A store with one shop, one pending order and two pending payments. -/
def stA : Store :=
  { shops := [shopA]
    orders := [orderA]
    payments := [payOrderA, paySubA]
    next_order_id := 2
    next_payment_id := 3 }

/-- A store holding only the shop of user 7: no orders, no payments. -/
def stB : Store :=
  { shops := [shopA]
    orders := []
    payments := []
    next_order_id := 1
    next_payment_id := 1 }

/-- The empty store. -/
def st0 : Store :=
  { shops := [], orders := [], payments := [], next_order_id := 1, next_payment_id := 1 }

/-- The photo files present on disk in the fixture scenarios. -/
def fsA : List String :=
  ["photos/order_42_100.jpg", "photos/pay_order_42_100.jpg", "photos/sub_7_100.jpg"]

/- ===== Helper lemmas (shared) ===== -/

/-- find? after an UPDATE ... WHERE key=k touches exactly the found row. -/
theorem find?_map_update {α : Type} (key : α → Int) (upd : α → α)
    (hk : ∀ x, key (upd x) = key x) (k : Int) (l : List α) (s : α)
    (h : l.find? (fun x => key x == k) = some s) :
    (l.map (fun x => if key x == k then upd x else x)).find? (fun x => key x == k)
      = some (upd s) := by
  induction l with
  | nil => simp at h
  | cons a t ih =>
    cases hb : (key a == k) with
    | true =>
      simp only [List.find?, hb] at h
      injection h with h2
      subst h2
      simp [List.find?, hb, hk]
    | false =>
      simp only [List.find?, hb] at h
      rw [List.map_cons, if_neg (by simp [hb])]
      simp only [List.find?, hb]
      exact ih h

/-- An UPDATE ... WHERE key=k that matches no row leaves the table unchanged. -/
theorem map_id_of_find?_none {α : Type} (key : α → Int) (upd : α → α) (k : Int) (l : List α)
    (h : l.find? (fun x => key x == k) = none) :
    l.map (fun x => if key x == k then upd x else x) = l := by
  induction l with
  | nil => rfl
  | cons a t ih =>
    cases hb : (key a == k) with
    | true =>
      simp only [List.find?, hb] at h
      exact Option.noConfusion h
    | false =>
      simp only [List.find?, hb] at h
      rw [List.map_cons, if_neg (by simp [hb]), ih h]

/-- The sweep of one row never makes a file reappear. -/
theorem sweepRow_not_mem {c : Int} {fs : List String} {pp : Option String}
    {ca : TimeVal} {p : String} (h : p ∉ fs) : p ∉ sweepRow c fs pp ca := by
  cases pp with
  | none => exact h
  | some q =>
    simp only [sweepRow]
    by_cases hc : fs.contains q
    · rw [if_pos hc]
      cases ca with
      | valid t =>
        dsimp only
        by_cases ht : t < c
        · rw [if_pos ht]
          intro hmem
          exact h (List.mem_of_mem_filter hmem)
        · rw [if_neg ht]; exact h
      | invalid s => exact h
    · rw [if_neg hc]; exact h

/-- Sweeping a qualifying row (path set, parseable created_at older than the
cutoff) leaves its file absent. -/
theorem sweepRow_kills {c t : Int} {fs : List String} {p : String} (ht : t < c) :
    p ∉ sweepRow c fs (some p) (TimeVal.valid t) := by
  simp only [sweepRow]
  by_cases hc : fs.contains p
  · rw [if_pos hc, if_pos ht]
    intro hmem
    rcases List.mem_filter.mp hmem with ⟨_, hpp⟩
    simp at hpp
  · rw [if_neg hc]
    intro hmem
    exact hc (List.elem_iff.mpr hmem)

/-- A file absent before a sweep pass stays absent. -/
theorem sweepList_not_mem {c : Int} {p : String}
    (rows : List (Option String × TimeVal)) :
    ∀ fs : List String, p ∉ fs → p ∉ sweepList c rows fs := by
  induction rows with
  | nil => intro fs h; exact h
  | cons r rs ih =>
    intro fs h
    simp only [sweepList, List.foldl_cons] at *
    exact ih _ (sweepRow_not_mem h)

/-- A file referenced by some qualifying row of the pass is gone afterwards. -/
theorem sweepList_kills {c t : Int} {p : String}
    (rows : List (Option String × TimeVal))
    (hmem : (some p, TimeVal.valid t) ∈ rows) (ht : t < c) :
    ∀ fs : List String, p ∉ sweepList c rows fs := by
  induction rows with
  | nil => exact absurd hmem (List.not_mem_nil _)
  | cons r rs ih =>
    intro fs
    simp only [sweepList, List.foldl_cons]
    rcases List.mem_cons.mp hmem with hr | hr
    · subst hr
      exact sweepList_not_mem rs _ (sweepRow_kills ht)
    · exact ih hr _

/-- Payment-status updates do not touch the shops table. -/
theorem update_payment_shops (st : Store) (pid : Int) (s : String) :
    (db_update_payment_status st pid s).shops = st.shops := rfl

/-- Payment-status updates do not touch the orders table. -/
theorem update_payment_orders (st : Store) (pid : Int) (s : String) :
    (db_update_payment_status st pid s).orders = st.orders := rfl

/-- Order-status updates do not touch the shops table. -/
theorem update_order_shops (st : Store) (oid : Int) (s : String) :
    (db_update_order_status st oid s).shops = st.shops := rfl

/-- Order-status updates do not touch the payments table. -/
theorem update_order_payments (st : Store) (oid : Int) (s : String) :
    (db_update_order_status st oid s).payments = st.payments := rfl

/-- db_get_shop reads only the shops table. -/
theorem db_get_shop_congr {st st' : Store} (h : st.shops = st'.shops) (k : Int) :
    db_get_shop st k = db_get_shop st' k := by
  unfold db_get_shop; rw [h]

/-- Characterisation of db_extend_shop on an existing shop row: it returns
base + days and updates exactly that row, leaving orders and payments alone. -/
theorem db_extend_shop_found (st : Store) (owner days now : Int) (s : Shop)
    (h : db_get_shop st owner = some s) :
    (db_extend_shop st owner days now).1 = extendBase (some s) now + days
    ∧ db_get_shop (db_extend_shop st owner days now).2 owner
        = some { s with expire_date := some (TimeVal.valid (extendBase (some s) now + days)) }
    ∧ (db_extend_shop st owner days now).2.orders = st.orders
    ∧ (db_extend_shop st owner days now).2.payments = st.payments := by
  refine ⟨by simp only [db_extend_shop, h], ?_, rfl, rfl⟩
  have h' : st.shops.find? (fun x => x.owner_id == owner) = some s := h
  simp only [db_extend_shop, db_get_shop, h']
  exact find?_map_update (fun x => x.owner_id)
    (fun x => { x with expire_date := some (TimeVal.valid (extendBase (some s) now + days)) })
    (fun x => rfl) owner st.shops s h'

/-- The whole store effect of an admin subOk decision, unfolded one level. -/
theorem subOk_step (ADMIN_ID : Int) (st : Store) (pid uid now : Int) :
    callback_handler ADMIN_ID st ADMIN_ID (Decision.subOk pid uid) now
      = (db_update_payment_status (db_extend_shop st uid SUBSCRIPTION_EXTENSION_DAYS now).2
           pid "approved",
         [Effect.sendMessage uid
            (subApprovedMsg (db_extend_shop st uid SUBSCRIPTION_EXTENSION_DAYS now).1),
          Effect.editCaption (s!"Subscription processed. Approved -> UID {uid}")]) := by
  simp [callback_handler]

/- ===== Claim theorems ===== -/

/-- C7 (confirmed): for every existing shop row, `db_extend_shop owner days`
returns base + days — base being the stored expiry when present and
parseable, now otherwise — and writes that value back as the row's new
expiry unconditionally, touching nothing else. -/
theorem C7_extend_is_base_plus_days (st : Store) (owner days now : Int) (s : Shop)
    (h : db_get_shop st owner = some s) :
    (db_extend_shop st owner days now).1 = extendBase (some s) now + days
    ∧ db_get_shop (db_extend_shop st owner days now).2 owner
        = some { s with expire_date := some (TimeVal.valid (extendBase (some s) now + days)) }
    ∧ (db_extend_shop st owner days now).2.orders = st.orders
    ∧ (db_extend_shop st owner days now).2.payments = st.payments :=
  db_extend_shop_found st owner days now s h

/-- Witness for C7: extending shop 7 (expiry day 10) by 30 at day 100
returns 40 and stores expiry 40. -/
theorem C7_extend_is_base_plus_days_witness :
    db_get_shop stA 7 = some shopA
    ∧ (db_extend_shop stA 7 30 100).1 = 40
    ∧ db_get_shop (db_extend_shop stA 7 30 100).2 7
        = some { shopA with expire_date := some (TimeVal.valid 40) } := by
  have h : db_get_shop stA 7 = some shopA := by decide
  have := C7_extend_is_base_plus_days stA 7 30 100 shopA h
  exact ⟨h, this.1, this.2.1⟩

/-- C6 (confirmed): two admin Approve(subscription) decisions for the same
shop, whose pre-extension expiry is present and parseable at day `d`, leave
the stored expiry at d + 2 extension periods: the extension compounds
rather than being idempotent. -/
theorem C6_subscription_approve_compounds (ADMIN_ID : Int) (st : Store)
    (uid pid pid2 now now2 d : Int) (s : Shop)
    (hshop : db_get_shop st uid = some s)
    (hexp : s.expire_date = some (TimeVal.valid d)) :
    db_get_shop
      (callback_handler ADMIN_ID
        (callback_handler ADMIN_ID st ADMIN_ID (Decision.subOk pid uid) now).1
        ADMIN_ID (Decision.subOk pid2 uid) now2).1 uid
      = some { s with
               expire_date := some (TimeVal.valid (d + 2 * SUBSCRIPTION_EXTENSION_DAYS)) } := by
  have e1 := db_extend_shop_found st uid SUBSCRIPTION_EXTENSION_DAYS now s hshop
  have hbase1 : extendBase (some s) now = d := by simp only [extendBase, hexp]
  rw [hbase1] at e1
  rw [subOk_step]
  have hget1 : db_get_shop (db_update_payment_status
      (db_extend_shop st uid SUBSCRIPTION_EXTENSION_DAYS now).2 pid "approved") uid
      = some { s with
               expire_date := some (TimeVal.valid (d + SUBSCRIPTION_EXTENSION_DAYS)) } := by
    rw [db_get_shop_congr (update_payment_shops _ _ _) uid]
    exact e1.2.1
  rw [subOk_step]
  have e2 := db_extend_shop_found _ uid SUBSCRIPTION_EXTENSION_DAYS now2 _ hget1
  have hbase2 : extendBase
      (some { s with
              expire_date := some (TimeVal.valid (d + SUBSCRIPTION_EXTENSION_DAYS)) }) now2
      = d + SUBSCRIPTION_EXTENSION_DAYS := by
    simp [extendBase]
  rw [hbase2] at e2
  rw [db_get_shop_congr (update_payment_shops _ _ _) uid, e2.2.1]
  have harith : d + SUBSCRIPTION_EXTENSION_DAYS + SUBSCRIPTION_EXTENSION_DAYS
      = d + 2 * SUBSCRIPTION_EXTENSION_DAYS := by ring
  rw [harith]

/-- Witness for C6: two approvals on shop 7 (expiry 10) leave expiry 70. -/
theorem C6_subscription_approve_compounds_witness :
    db_get_shop stA 7 = some shopA
    ∧ shopA.expire_date = some (TimeVal.valid 10)
    ∧ db_get_shop
        (callback_handler 1
          (callback_handler 1 stA 1 (Decision.subOk 2 7) 100).1
          1 (Decision.subOk 2 7) 100).1 7
        = some { shopA with expire_date := some (TimeVal.valid 70) } := by
  refine ⟨by decide, by decide, ?_⟩
  have := C6_subscription_approve_compounds 1 stA 7 2 2 100 100 10 shopA
    (by decide) (by decide)
  simpa using this

/-- C10 (confirmed): for an identity with no shop row, db_extend_shop
returns now + days while its UPDATE matches no row, so the store is left
entirely unchanged; an admin Approve(subscription) for such a submitter
still marks the payment approved and reports the never-persisted expiry
now + extension to the submitter. -/
theorem C10_extend_without_shop (ADMIN_ID : Int) (st : Store)
    (uid pid days now : Int) (p : PaymentRec)
    (hno : db_get_shop st uid = none)
    (hpay : st.payments.find? (fun q => q.id == pid) = some p) :
    (db_extend_shop st uid days now).1 = now + days
    ∧ (db_extend_shop st uid days now).2 = st
    ∧ (callback_handler ADMIN_ID st ADMIN_ID (Decision.subOk pid uid) now).1.shops = st.shops
    ∧ (callback_handler ADMIN_ID st ADMIN_ID (Decision.subOk pid uid) now).1.payments.find?
        (fun q => q.id == pid) = some { p with status := "approved" }
    ∧ (callback_handler ADMIN_ID st ADMIN_ID (Decision.subOk pid uid) now).2
        = [Effect.sendMessage uid (subApprovedMsg (now + SUBSCRIPTION_EXTENSION_DAYS)),
           Effect.editCaption (s!"Subscription processed. Approved -> UID {uid}")] := by
  have hno' : st.shops.find? (fun x => x.owner_id == uid) = none := hno
  have hid : (db_extend_shop st uid days now).2 = st := by
    have hmap := map_id_of_find?_none (fun x => x.owner_id)
      (fun x => { x with
        expire_date := some (TimeVal.valid (extendBase (db_get_shop st uid) now + days)) })
      uid st.shops hno'
    unfold db_extend_shop
    dsimp only
    rw [hmap]
  have hid30 : (db_extend_shop st uid SUBSCRIPTION_EXTENSION_DAYS now).2 = st := by
    have hmap := map_id_of_find?_none (fun x => x.owner_id)
      (fun x => { x with
        expire_date := some (TimeVal.valid (extendBase (db_get_shop st uid) now
          + SUBSCRIPTION_EXTENSION_DAYS)) })
      uid st.shops hno'
    unfold db_extend_shop
    dsimp only
    rw [hmap]
  have hval : (db_extend_shop st uid days now).1 = now + days := by
    simp [db_extend_shop, hno, extendBase]
  have hval30 : (db_extend_shop st uid SUBSCRIPTION_EXTENSION_DAYS now).1
      = now + SUBSCRIPTION_EXTENSION_DAYS := by
    simp [db_extend_shop, hno, extendBase]
  refine ⟨hval, hid, ?_, ?_, ?_⟩
  · rw [subOk_step, update_payment_shops, hid30]
  · rw [subOk_step]
    show (db_update_payment_status (db_extend_shop st uid SUBSCRIPTION_EXTENSION_DAYS now).2
      pid "approved").payments.find? (fun q => q.id == pid) = _
    rw [hid30]
    exact find?_map_update (fun x => x.id) (fun x => { x with status := "approved" })
      (fun x => rfl) pid st.payments p hpay
  · rw [subOk_step, hval30]

/-- Witness for C10: user 42 has no shop; extending returns day 130 with the
store untouched, and the admin approval still approves payment 1. -/
theorem C10_extend_without_shop_witness :
    db_get_shop stA 42 = none
    ∧ (db_extend_shop stA 42 30 100).1 = 130
    ∧ (db_extend_shop stA 42 30 100).2 = stA
    ∧ (callback_handler 1 stA 1 (Decision.subOk 1 42) 100).1.shops = stA.shops := by
  have h := C10_extend_without_shop 1 stA 42 1 30 100 payOrderA (by decide) (by decide)
  exact ⟨by decide, h.1, h.2.1, h.2.2.1⟩

/-- A conf decision for an authorized caller (admin or resolvable owner),
unfolded one level: the order status write and the customer notification. -/
theorem orderConf_step (ADMIN_ID : Int) (st : Store) (user_id oid now : Int)
    (order : OrderRec) (hord : db_get_order st oid = some order)
    (hauth : user_id = ADMIN_ID
      ∨ (db_get_shop st order.shop_id).map (fun s => s.owner_id) = some user_id) :
    callback_handler ADMIN_ID st user_id (Decision.orderConf oid) now
      = (db_update_order_status st oid "Confirmed",
         [Effect.sendMessage order.customer_id (orderConfirmedMsg oid),
          Effect.editCaption (s!"Order #{oid} - Confirmed")]) := by
  have hcond : (user_id != ADMIN_ID
      && (match (db_get_shop st order.shop_id).map (fun s => s.owner_id) with
          | some o => user_id != o
          | none => true)) = false := by
    rcases hauth with h | h
    · subst h; simp
    · rw [h]; simp
  simp [callback_handler, hord, hcond]

/-- A rej decision for an authorized caller, unfolded one level. -/
theorem orderRej_step (ADMIN_ID : Int) (st : Store) (user_id oid now : Int)
    (order : OrderRec) (hord : db_get_order st oid = some order)
    (hauth : user_id = ADMIN_ID
      ∨ (db_get_shop st order.shop_id).map (fun s => s.owner_id) = some user_id) :
    callback_handler ADMIN_ID st user_id (Decision.orderRej oid) now
      = (db_update_order_status st oid "Rejected",
         [Effect.sendMessage order.customer_id (orderRejectedMsg oid),
          Effect.editCaption (s!"Order #{oid} - Rejected")]) := by
  have hcond : (user_id != ADMIN_ID
      && (match (db_get_shop st order.shop_id).map (fun s => s.owner_id) with
          | some o => user_id != o
          | none => true)) = false := by
    rcases hauth with h | h
    · subst h; simp
    · rw [h]; simp
  simp [callback_handler, hord, hcond]

/-- An order decision whose order id is absent answers "not found" and does
nothing, whichever action was chosen. -/
theorem orderNotFound_step (ADMIN_ID : Int) (st : Store) (user_id oid now : Int)
    (hord : db_get_order st oid = none) :
    callback_handler ADMIN_ID st user_id (Decision.orderConf oid) now
      = (st, [Effect.editText "Order not found."])
    ∧ callback_handler ADMIN_ID st user_id (Decision.orderRej oid) now
      = (st, [Effect.editText "Order not found."]) := by
  constructor <;> simp [callback_handler, hord]

/-- An order decision from a caller who is neither the admin nor the
resolvable owner is answered "Not authorized" with no state change. -/
theorem orderUnauthorized_step (ADMIN_ID : Int) (st : Store) (user_id oid now : Int)
    (order : OrderRec) (hord : db_get_order st oid = some order)
    (hadmin : user_id ≠ ADMIN_ID)
    (howner : ∀ s : Shop, db_get_shop st order.shop_id = some s → user_id ≠ s.owner_id) :
    callback_handler ADMIN_ID st user_id (Decision.orderConf oid) now
      = (st, [Effect.answerAlert "Not authorized"])
    ∧ callback_handler ADMIN_ID st user_id (Decision.orderRej oid) now
      = (st, [Effect.answerAlert "Not authorized"]) := by
  have hcond : (user_id != ADMIN_ID
      && (match (db_get_shop st order.shop_id).map (fun s => s.owner_id) with
          | some o => user_id != o
          | none => true)) = true := by
    cases hsh : db_get_shop st order.shop_id with
    | none => simp [hadmin]
    | some s => simp [hadmin, howner s hsh]
  constructor <;> simp [callback_handler, hord, hcond]

/-- C1 (amended from the claim): an authorized approve decision on an
existing order sets that order to Confirmed and notifies the customer, but
mutates no Payment record at all — the registered handler's order callbacks
carry no payment identifier and its order branch never writes the payments
table. -/
theorem C1_order_approve_updates_order_only (ADMIN_ID : Int) (st : Store)
    (user_id oid now : Int) (order : OrderRec)
    (hord : db_get_order st oid = some order)
    (hauth : user_id = ADMIN_ID
      ∨ (db_get_shop st order.shop_id).map (fun s => s.owner_id) = some user_id) :
    callback_handler ADMIN_ID st user_id (Decision.orderConf oid) now
      = (db_update_order_status st oid "Confirmed",
         [Effect.sendMessage order.customer_id (orderConfirmedMsg oid),
          Effect.editCaption (s!"Order #{oid} - Confirmed")])
    ∧ db_get_order (callback_handler ADMIN_ID st user_id (Decision.orderConf oid) now).1 oid
        = some { order with status := "Confirmed" }
    ∧ (callback_handler ADMIN_ID st user_id (Decision.orderConf oid) now).1.payments
        = st.payments := by
  have h1 := orderConf_step ADMIN_ID st user_id oid now order hord hauth
  have hord' : st.orders.find? (fun x => x.id == oid) = some order := hord
  refine ⟨h1, ?_, ?_⟩
  · rw [h1]
    exact find?_map_update (fun x => x.id) (fun x => { x with status := "Confirmed" })
      (fun x => rfl) oid st.orders order hord'
  · rw [h1]; rfl

/-- Witness for C1: the shop owner (7) approves order 1; it becomes
Confirmed, customer 42 is notified, payments are untouched. -/
theorem C1_order_approve_updates_order_only_witness :
    db_get_order stA 1 = some orderA
    ∧ (db_get_shop stA orderA.shop_id).map (fun s => s.owner_id) = some 7
    ∧ db_get_order (callback_handler 1 stA 7 (Decision.orderConf 1) 100).1 1
        = some { orderA with status := "Confirmed" }
    ∧ (callback_handler 1 stA 7 (Decision.orderConf 1) 100).1.payments = stA.payments
    ∧ (callback_handler 1 stA 7 (Decision.orderConf 1) 100).2
        = [Effect.sendMessage 42 (orderConfirmedMsg 1),
           Effect.editCaption "Order #1 - Confirmed"] := by
  have h := C1_order_approve_updates_order_only 1 stA 7 1 100 orderA
    (by decide) (Or.inr (by decide))
  exact ⟨by decide, by decide, h.2.1, h.2.2, by rw [h.1]; rfl⟩

/-- C1 counterexample: approving existing order 1 — whose kind-order payment
(id 1, ref 1) is pending — confirms the order but leaves that payment's
status "pending", not "approved". -/
theorem C1_counterexample :
    payOrderA.kind = "order" ∧ payOrderA.ref_id = some 1
    ∧ (callback_handler 1 stA 7 (Decision.orderConf 1) 100).1.orders.map OrderRec.status
        = ["Confirmed"]
    ∧ (callback_handler 1 stA 7 (Decision.orderConf 1) 100).1.payments.map PaymentRec.status
        = ["pending", "pending"] := by decide

/-- C3 (amended from the claim): a subscription decision from any non-admin
identity, and an order decision from an identity that is neither the admin
nor the resolvable shop owner, are answered "Not authorized" with no state
change; the admin however is always accepted for order decisions, so the
accepted identities for an order are the admin together with the resolvable
owner, rather than only the routed approver. -/
theorem C3_decision_authorization (ADMIN_ID : Int) (st : Store) (user_id now : Int) :
    (∀ pid uid : Int, user_id ≠ ADMIN_ID →
       callback_handler ADMIN_ID st user_id (Decision.subOk pid uid) now
         = (st, [Effect.answerAlert "Not authorized"])
       ∧ callback_handler ADMIN_ID st user_id (Decision.subNo pid uid) now
         = (st, [Effect.answerAlert "Not authorized"]))
    ∧ (∀ (oid : Int) (order : OrderRec), db_get_order st oid = some order →
        user_id ≠ ADMIN_ID →
        (∀ s : Shop, db_get_shop st order.shop_id = some s → user_id ≠ s.owner_id) →
        callback_handler ADMIN_ID st user_id (Decision.orderConf oid) now
          = (st, [Effect.answerAlert "Not authorized"])
        ∧ callback_handler ADMIN_ID st user_id (Decision.orderRej oid) now
          = (st, [Effect.answerAlert "Not authorized"])) := by
  constructor
  · intro pid uid h
    constructor <;> simp [callback_handler, h]
  · intro oid order hord hadmin howner
    exact orderUnauthorized_step ADMIN_ID st user_id oid now order hord hadmin howner

/-- Witness for C3: user 5 (neither admin 1 nor owner 7) is refused on both
a subscription and an order decision, with the store unchanged. -/
theorem C3_decision_authorization_witness :
    ((5 : Int) ≠ 1
      ∧ callback_handler 1 stA 5 (Decision.subOk 2 7) 100
          = (stA, [Effect.answerAlert "Not authorized"]))
    ∧ (db_get_order stA 1 = some orderA
      ∧ callback_handler 1 stA 5 (Decision.orderConf 1) 100
          = (stA, [Effect.answerAlert "Not authorized"])) := by
  have h := C3_decision_authorization 1 stA 5 100
  refine ⟨⟨by decide, (h.1 2 7 (by decide)).1⟩, ⟨by decide, (h.2 1 orderA (by decide) (by decide) ?_).1⟩⟩
  intro s hs
  have e : db_get_shop stA orderA.shop_id = some shopA := by decide
  rw [e] at hs
  injection hs with hs2
  subst hs2
  decide

/-- C3 counterexample: order 1 belongs to shop 7 whose owner resolves to 7,
yet the admin identity 1 — a different identity from the resolved approver —
applies the decision and the order row is mutated to Confirmed. -/
theorem C3_counterexample :
    (db_get_shop stA orderA.shop_id).map (fun s => s.owner_id) = some 7
    ∧ (1 : Int) ≠ 7
    ∧ stA.orders.map OrderRec.status = ["Pending"]
    ∧ (callback_handler 1 stA 1 (Decision.orderConf 1) 100).1.orders.map OrderRec.status
        = ["Confirmed"] := by decide

/-- C4 (amended from the claim): order decisions check existence — an
unknown order id is answered "Order not found." and nothing changes; but
subscription decisions perform no existence check: with an unknown payment
id the payments table is left unchanged only because the UPDATE matches no
row, while an admin approval still extends the named submitter's shop
expiry exactly as db_extend_shop prescribes. -/
theorem C4_unknown_submission (ADMIN_ID : Int) (st : Store) (user_id now : Int) :
    (∀ oid : Int, db_get_order st oid = none →
       callback_handler ADMIN_ID st user_id (Decision.orderConf oid) now
         = (st, [Effect.editText "Order not found."])
       ∧ callback_handler ADMIN_ID st user_id (Decision.orderRej oid) now
         = (st, [Effect.editText "Order not found."]))
    ∧ (∀ pid uid : Int, st.payments.find? (fun q => q.id == pid) = none →
        (callback_handler ADMIN_ID st ADMIN_ID (Decision.subOk pid uid) now).1.payments
          = st.payments
        ∧ (callback_handler ADMIN_ID st ADMIN_ID (Decision.subOk pid uid) now).1.shops
          = (db_extend_shop st uid SUBSCRIPTION_EXTENSION_DAYS now).2.shops) := by
  constructor
  · intro oid hord
    exact orderNotFound_step ADMIN_ID st user_id oid now hord
  · intro pid uid hpay
    constructor
    · rw [subOk_step]
      show (db_extend_shop st uid SUBSCRIPTION_EXTENSION_DAYS now).2.payments.map
        (fun p => if p.id == pid then { p with status := "approved" } else p) = st.payments
      have hpay2 : (db_extend_shop st uid SUBSCRIPTION_EXTENSION_DAYS now).2.payments
          = st.payments := rfl
      rw [hpay2]
      exact map_id_of_find?_none (fun x => x.id) (fun x => { x with status := "approved" })
        pid st.payments hpay
    · rw [subOk_step, update_payment_shops]

/-- Witness for C4: order 99 is unknown in stA, so the decision answers
"Order not found." and returns the store unchanged; payment 99 is unknown
too, so the subscription approval leaves the payments table unchanged. -/
theorem C4_unknown_submission_witness :
    db_get_order stA 99 = none
    ∧ callback_handler 1 stA 7 (Decision.orderConf 99) 100
        = (stA, [Effect.editText "Order not found."])
    ∧ stA.payments.find? (fun q => q.id == 99) = none
    ∧ (callback_handler 1 stA 1 (Decision.subOk 99 7) 100).1.payments = stA.payments := by
  have h := C4_unknown_submission 1 stA 7 100
  exact ⟨by decide, (h.1 99 (by decide)).1, by decide, (h.2 99 7 (by decide)).1⟩

/-- C4 counterexample: stB has no payment rows at all, yet the admin
decision sub_ok on unknown payment 99 never answers "not found": it reports
an approval and extends shop 7's stored expiry from day 10 to day 40. -/
theorem C4_counterexample :
    stB.payments = []
    ∧ stB.shops.map Shop.expire_date = [some (TimeVal.valid 10)]
    ∧ (callback_handler 1 stB 1 (Decision.subOk 99 7) 100).1.shops.map Shop.expire_date
        = [some (TimeVal.valid 40)]
    ∧ (callback_handler 1 stB 1 (Decision.subOk 99 7) 100).2
        = [Effect.sendMessage 7 (subApprovedMsg 40),
           Effect.editCaption "Subscription processed. Approved -> UID 7"] := by decide

/-- C5 (amended from the claim): db_update_order_status writes the status
unconditionally and decision processing never inspects the current status,
so a terminal status is not frozen: an authorized confirm followed by an
authorized reject moves the same order Pending to Confirmed to Rejected. -/
theorem C5_status_overwritten (ADMIN_ID : Int) (st : Store) (oid now now2 : Int)
    (order : OrderRec) (hord : db_get_order st oid = some order) :
    db_get_order (callback_handler ADMIN_ID st ADMIN_ID (Decision.orderConf oid) now).1 oid
      = some { order with status := "Confirmed" }
    ∧ db_get_order (callback_handler ADMIN_ID
        (callback_handler ADMIN_ID st ADMIN_ID (Decision.orderConf oid) now).1
        ADMIN_ID (Decision.orderRej oid) now2).1 oid
      = some { order with status := "Rejected" } := by
  have h1 := orderConf_step ADMIN_ID st ADMIN_ID oid now order hord (Or.inl rfl)
  have hord' : st.orders.find? (fun x => x.id == oid) = some order := hord
  have g1 : db_get_order (callback_handler ADMIN_ID st ADMIN_ID (Decision.orderConf oid) now).1 oid
      = some { order with status := "Confirmed" } := by
    rw [h1]
    exact find?_map_update (fun x => x.id) (fun x => { x with status := "Confirmed" })
      (fun x => rfl) oid st.orders order hord'
  refine ⟨g1, ?_⟩
  have h2 := orderRej_step ADMIN_ID
    (callback_handler ADMIN_ID st ADMIN_ID (Decision.orderConf oid) now).1
    ADMIN_ID oid now2 { order with status := "Confirmed" } g1 (Or.inl rfl)
  have g1' : (callback_handler ADMIN_ID st ADMIN_ID (Decision.orderConf oid) now).1.orders.find?
      (fun x => x.id == oid) = some { order with status := "Confirmed" } := g1
  rw [h2]
  exact find?_map_update (fun x => x.id) (fun x => { x with status := "Rejected" })
    (fun x => rfl) oid
    (callback_handler ADMIN_ID st ADMIN_ID (Decision.orderConf oid) now).1.orders
    { order with status := "Confirmed" } g1'

/-- Witness for C5: order 1 goes Pending to Confirmed to Rejected under two
successive admin decisions. -/
theorem C5_status_overwritten_witness :
    db_get_order stA 1 = some orderA
    ∧ db_get_order (callback_handler 1 stA 1 (Decision.orderConf 1) 100).1 1
        = some { orderA with status := "Confirmed" }
    ∧ db_get_order (callback_handler 1
        (callback_handler 1 stA 1 (Decision.orderConf 1) 100).1
        1 (Decision.orderRej 1) 100).1 1
        = some { orderA with status := "Rejected" } := by
  have h := C5_status_overwritten 1 stA 1 100 100 orderA (by decide)
  exact ⟨by decide, h.1, h.2⟩

/-- C5 counterexample: order 1 is Confirmed by the first decision and then
Rejected by the second — a Confirmed order's status is changed by further
decision processing. -/
theorem C5_counterexample :
    (callback_handler 1 stA 1 (Decision.orderConf 1) 100).1.orders.map OrderRec.status
      = ["Confirmed"]
    ∧ (callback_handler 1 (callback_handler 1 stA 1 (Decision.orderConf 1) 100).1
        1 (Decision.orderRej 1) 100).1.orders.map OrderRec.status
      = ["Rejected"] := by decide

/-- C2 (amended from the claim): an order submission completed by the active
engine writes exactly one Pending order row — with empty items and zero
total — and no Payment row at all; the legacy engine's checkout wrote
exactly one payment of kind "order" whose ref_id equals the freshly created
order id; subscription submissions write a payment carrying no order
reference. -/
theorem C2_submission_rows (st : Store) (sid uid : Int) (nm ph ad : String)
    (photo : Option String) (cart : List String) (total : Int) (fn : String)
    (now : Int) :
    (order_address_submit st sid uid nm ph ad photo now).2.payments = st.payments
    ∧ (order_address_submit st sid uid nm ph ad photo now).2.orders
        = st.orders ++ [{ id := st.next_order_id
                          shop_id := sid
                          customer_id := uid
                          cust_name := nm
                          cust_phone := ph
                          cust_address := ad
                          items := ""
                          total := 0
                          photo_path := photo
                          status := "Pending"
                          created_at := TimeVal.valid now }]
    ∧ (order_photo_receive_submit st sid uid nm ph ad cart total fn now).1
        = st.next_order_id
    ∧ (order_photo_receive_submit st sid uid nm ph ad cart total fn now).2.2.payments
        = st.payments ++ [{ id := st.next_payment_id
                            uid := uid
                            kind := "order"
                            ref_id := some st.next_order_id
                            photo_path := some fn
                            status := "pending"
                            created_at := TimeVal.valid now }]
    ∧ (pay_sub_receive_submit st uid fn now).2.payments
        = st.payments ++ [{ id := st.next_payment_id
                            uid := uid
                            kind := "subscription"
                            ref_id := none
                            photo_path := some fn
                            status := "pending"
                            created_at := TimeVal.valid now }] :=
  ⟨rfl, rfl, rfl, rfl, rfl⟩

/-- C2 counterexample: completing an order submission through the active
engine on the empty store creates the order but zero Payment records — not
the exactly-one kind-order payment the claim requires. -/
theorem C2_counterexample :
    (order_address_submit st0 7 42 "Aye" "0912" "Yangon" (some "p.jpg") 100).2.orders.length = 1
    ∧ (order_address_submit st0 7 42 "Aye" "0912" "Yangon" (some "p.jpg") 100).2.payments
        = [] := by decide

/-- Folding a list of valid entries over the shopping state appends their
renderings in order and accumulates their prices into the total. -/
theorem runShopping_entries (entries : List (String × Int)) :
    ∀ st : CartState,
      runShopping st (entries.map (fun e => ShopInput.entry e.1 e.2))
        = { cart := st.cart ++ entries.map (fun e => entryStr e.1 e.2),
            total := st.total + (entries.map (fun e => e.2)).sum } := by
  induction entries with
  | nil =>
    intro st
    cases st
    simp [runShopping]
  | cons e t ih =>
    intro st
    have step : runShopping st ((e :: t).map (fun e => ShopInput.entry e.1 e.2))
        = runShopping { cart := st.cart ++ [entryStr e.1 e.2], total := st.total + e.2 }
            (t.map (fun e => ShopInput.entry e.1 e.2)) := rfl
    rw [step, ih]
    simp [List.append_assoc, add_assoc]

/-- C8 (confirmed): from the fresh shopping state (cart = [], total = 0, as
initialised by order_start), any sequence of valid name:price entries yields
a total equal to the sum of the entered prices and a cart holding exactly
the rendered entries in insertion order; the view-cart input then echoes
exactly that cart and total without changing the state. -/
theorem C8_cart_sum_and_view (entries : List (String × Int)) :
    runShopping { cart := [], total := 0 } (entries.map (fun e => ShopInput.entry e.1 e.2))
      = { cart := entries.map (fun e => entryStr e.1 e.2),
          total := (entries.map (fun e => e.2)).sum }
    ∧ order_shopping
        { cart := entries.map (fun e => entryStr e.1 e.2),
          total := (entries.map (fun e => e.2)).sum } ShopInput.viewCart
      = ShoppingStep.stay
          { cart := entries.map (fun e => entryStr e.1 e.2),
            total := (entries.map (fun e => e.2)).sum }
          (some (cartViewMsg (entries.map (fun e => entryStr e.1 e.2))
            ((entries.map (fun e => e.2)).sum))) := by
  constructor
  · have h := runShopping_entries entries { cart := [], total := 0 }
    simpa using h
  · rfl

/-- C9 (amended from the claim): on a sweep run, every artifact file
referenced from an order or payment row whose created_at parses and is
older than the cutoff is deleted from the file store, but the sweep
performs no database write at all: the owning records are returned exactly
as they were, photo_path references included, so dangling paths remain. -/
theorem C9_sweep_deletes_but_keeps_references (st : Store) (fs : List String)
    (now t : Int) (p : String)
    (hrow : (some p, TimeVal.valid t)
          ∈ st.orders.map (fun r => (r.photo_path, r.created_at))
        ∨ (some p, TimeVal.valid t)
          ∈ st.payments.map (fun r => (r.photo_path, r.created_at)))
    (ht : t < now - CLEANUP_PHOTO_DAYS) :
    p ∉ (cleanup_old_photos st fs now).2
    ∧ (cleanup_old_photos st fs now).1 = st := by
  refine ⟨?_, rfl⟩
  simp only [cleanup_old_photos]
  rcases hrow with h | h
  · exact sweepList_not_mem _ _ (sweepList_kills _ h ht fs)
  · exact sweepList_kills _ h ht _

/-- Witness for C9: order 1 references photos/order_42_100.jpg created at
day 0; sweeping at day 100 (cutoff 70) deletes the file while the store —
including the order's photo_path column — is returned unchanged. -/
theorem C9_sweep_deletes_but_keeps_references_witness :
    ((some "photos/order_42_100.jpg", TimeVal.valid 0)
        ∈ stA.orders.map (fun r => (r.photo_path, r.created_at)))
    ∧ (0 : Int) < 100 - CLEANUP_PHOTO_DAYS
    ∧ "photos/order_42_100.jpg" ∉ (cleanup_old_photos stA fsA 100).2
    ∧ (cleanup_old_photos stA fsA 100).1 = stA := by
  have h := C9_sweep_deletes_but_keeps_references stA fsA 100 0 "photos/order_42_100.jpg"
    (Or.inl (by decide)) (by decide)
  exact ⟨by decide, by decide, h.1, h.2⟩

/-- C9 counterexample: after the sweep at day 100 every old photo file is
gone from disk, yet order 1 still carries its photo_path reference — the
reference field is not cleared, leaving a dangling path. -/
theorem C9_counterexample :
    (cleanup_old_photos stA fsA 100).2 = []
    ∧ (cleanup_old_photos stA fsA 100).1.orders.map OrderRec.photo_path
        = [some "photos/order_42_100.jpg"]
    ∧ (cleanup_old_photos stA fsA 100).1.payments.map PaymentRec.photo_path
        = [some "photos/pay_order_42_100.jpg", some "photos/sub_7_100.jpg"] := by decide

end LinkingMarket
